import Mathlib

/-!
Verification development for the statement-parser core (`lib/parser.ts`).

The TypeScript source is shallowly embedded: numbers are modelled by `ℚ`
(the pipeline only performs exact decimal arithmetic on parsed amounts),
nullable fields by `Option`, and JavaScript truthiness / string coercions by
explicit helper functions.  The one impure read in the source — the wall
clock used for the `DTSERVER` line of the OFX serializer — is passed in as
an explicit `now : String` argument.
-/

set_option maxRecDepth 16000

namespace StatementParser

/-- JavaScript truthiness of a nullable string: `null`/`undefined` and the
empty string are falsy. -/
def jsTruthy (o : Option String) : Bool :=
  match o with
  | some s => !s.isEmpty
  | none => false

/-- `o ?? ""`, the string a nullable slot contributes once JS has coerced
absence to the empty string (used where the source already knows the slot
is truthy, and for `newValue || ''`). -/
def orEmpty (o : Option String) : String :=
  match o with
  | some s => s
  | none => ""

/-- `value?.f() || default`: absent or empty-after-transform falls back to
the default (models the `statementStartDate?.replace(...) || d` idiom). -/
def jsOrDefault (o : Option String) (d : String) : String :=
  match o with
  | some s => if s.isEmpty then d else s
  | none => d

/-- Decimal digits to a natural number. -/
def digitsToNat (cs : List Char) : ℕ :=
  cs.foldl (fun n c => 10 * n + (c.toNat - Char.toNat '0')) 0

/-- `s.replace(/[^0-9.-]/g, '')`: keep only digits, dots and hyphens. -/
def stripNonNumeric (s : String) : String :=
  String.mk (s.data.filter (fun c => c.isDigit || c == '.' || c == '-'))

/-- `s.replace(..., '')` deleting every hyphen. -/
def stripDashes (s : String) : String :=
  String.mk (s.data.filter (fun c => c != '-'))

/-- Model of JavaScript `parseFloat` on a string already restricted to the
alphabet `0-9 . -` (the source always strips other characters first):
an optional leading minus sign, then the longest prefix of digits, an
optional dot and further digits; `NaN` (here `none`) when no digit is
consumed. -/
def jsParseFloat (s : String) : Option ℚ :=
  let (neg, cs) :=
    match s.data with
    | '-' :: rest => (true, rest)
    | cs => (false, cs)
  let ds := cs.takeWhile Char.isDigit
  let rest := cs.dropWhile Char.isDigit
  let fs :=
    match rest with
    | '.' :: r2 => r2.takeWhile Char.isDigit
    | _ => []
  if ds.isEmpty && fs.isEmpty then none
  else
    let mag : ℚ := (digitsToNat ds : ℚ) + (digitsToNat fs : ℚ) / 10 ^ fs.length
    some (if neg then -mag else mag)

/-- `Math.round`: round to the nearest integer, ties toward `+∞`
(`Math.round(-2.5) = -2`), i.e. `⌊x + 1/2⌋`. -/
def jsRound (q : ℚ) : ℚ :=
  ((q + 1 / 2).floor : ℚ)

/-- Days in a month, Gregorian calendar. -/
def daysInMonth (y m : ℕ) : ℕ :=
  if m = 2 then
    if (y % 4 = 0 ∧ y % 100 ≠ 0) ∨ y % 400 = 0 then 29 else 28
  else if m = 4 ∨ m = 6 ∨ m = 9 ∨ m = 11 then 30
  else 31

/-- Model of `new Date(s)` followed by the `isNaN(getTime())` validity
check, for the ISO `YYYY-MM-DD` format the pipeline itself produces (the
engine-specific fallback parsing of other layouts is modelled as failure).
Returns the calendar triple `(year, month, day)` on success. -/
def jsParseDate (s : String) : Option (ℕ × ℕ × ℕ) :=
  match s.data with
  | [y1, y2, y3, y4, '-', m1, m2, '-', d1, d2] =>
    if y1.isDigit && y2.isDigit && y3.isDigit && y4.isDigit &&
        m1.isDigit && m2.isDigit && d1.isDigit && d2.isDigit then
      let y := digitsToNat [y1, y2, y3, y4]
      let m := digitsToNat [m1, m2]
      let d := digitsToNat [d1, d2]
      if 1 ≤ m ∧ m ≤ 12 ∧ 1 ≤ d ∧ d ≤ daysInMonth y m then some (y, m, d) else none
    else none
  | _ => none

/-- Left-pad the decimal form of `n` with zeros to `len` characters. -/
def padNat (len n : ℕ) : String :=
  let s := toString n
  String.mk (List.replicate (len - s.length) '0') ++ s

/-- `date.toISOString().split('T')[0]` for a parsed calendar triple. -/
def isoOfDate (t : ℕ × ℕ × ℕ) : String :=
  padNat 4 t.1 ++ "-" ++ padNat 2 t.2.1 ++ "-" ++ padNat 2 t.2.2

/-- Chronological key of a calendar triple (monotone for valid dates). -/
def dateNum (t : ℕ × ℕ × ℕ) : ℕ :=
  t.1 * 10000 + t.2.1 * 100 + t.2.2

/-- `a < b` on `Date` objects: any comparison involving an Invalid Date is
false. -/
def jsDateLt (a b : Option (ℕ × ℕ × ℕ)) : Bool :=
  match a, b with
  | some x, some y => decide (dateNum x < dateNum y)
  | _, _ => false

/-- `n / 10^k` printed with exactly `k` decimal digits (`k = 0`: no dot). -/
def natDecimalString (n k : ℕ) : String :=
  if k = 0 then toString n
  else toString (n / 10 ^ k) ++ "." ++ padNat k (n % 10 ^ k)

/-- Smallest `k ≤ 64` with `den ∣ 10^k`, i.e. the number of decimal digits
needed to print the rational exactly. -/
def decimalExp (den : ℕ) : Option ℕ :=
  (List.range 65).find? (fun k => decide (den ∣ 10 ^ k))

/-- Model of JavaScript number-to-string coercion for the finite-decimal
values the pipeline produces: the exact decimal expansion with no trailing
zeros (`100 → "100"`, `250.5 → "250.5"`), which is the shortest round-trip
representation JS prints for such values.  Non-decimal rationals (never
produced by the embedded code) fall back to a fraction rendering. -/
def jsNumToString (q : ℚ) : String :=
  match decimalExp q.den with
  | some k =>
    let s := natDecimalString (q.num.natAbs * (10 ^ k / q.den)) k
    if q.num < 0 then "-" ++ s else s
  | none => toString q.num ++ "/" ++ toString q.den

/-- `x.toFixed(2)`: nearest 2-decimal value, ties toward `+∞`. -/
def jsToFixed2 (q : ℚ) : String :=
  let n := (q * 100 + 1 / 2).floor
  if n < 0 then "-" ++ natDecimalString n.natAbs 2 else natDecimalString n.natAbs 2

/-- `ToInt32` coercion (the `hash & hash` / `<<` wrap-around in JS). -/
def toInt32 (n : ℤ) : ℤ :=
  (n + 2 ^ 31) % 2 ^ 32 - 2 ^ 31

/-- `simpleHash` from the source: the 32-bit rolling hash
`hash = (hash << 5) - hash + charCode` (per step `ToInt32 (31·h + c)`,
since `ToInt32` is invariant under the intermediate wrap), rendered as the
lowercase hex form of its absolute value. -/
def simpleHash (input : String) : String :=
  let h := input.data.foldl (fun h c => toInt32 (31 * h + (c.toNat : ℤ))) 0
  String.mk (Nat.toDigits 16 h.natAbs)

/-- Flag severity (`'error' | 'warning'`). -/
inductive Severity where
  | error
  | warning
deriving DecidableEq

/-- Verdict (`'PASS' | 'BLOCK'`). -/
inductive Status where
  | PASS
  | BLOCK
deriving DecidableEq

/-- `Transaction` from `lib/types.ts`.  Raw fields are nullable strings;
normalized fields are written by the Normalizer; the `original*` shadows
distinguish "never set" (`none`) from "set to null" (`some none`), matching
the TS distinction between a missing property and a property holding
`null`. -/
structure Transaction where
  rowId : String := ""
  postedDate : Option String := none
  description : String := ""
  debit : Option String := none
  credit : Option String := none
  runningBalance : Option String := none
  normalizedDate : Option String := none
  normalizedAmount : Option ℚ := none
  normalizedBalance : Option ℚ := none
  originalPostedDate : Option (Option String) := none
  originalDescription : Option String := none
  originalDebit : Option (Option String) := none
  originalCredit : Option (Option String) := none
  isEdited : Bool := false
  editedFields : List String := []

/-- `StatementMetadata` from `lib/types.ts`. -/
structure StatementMetadata where
  financialInstitution : Option String := none
  accountName : Option String := none
  accountNumberLastFour : Option String := none
  accountType : Option String := none
  currency : Option String := none
  statementStartDate : Option String := none
  statementEndDate : Option String := none
  openingBalance : Option String := none
  closingBalance : Option String := none
  totalDebits : Option String := none
  totalCredits : Option String := none
  normalizedOpeningBalance : Option ℚ := none
  normalizedClosingBalance : Option ℚ := none
  normalizedTotalDebits : Option ℚ := none
  normalizedTotalCredits : Option ℚ := none

/-- `ValidationFlag` from `lib/types.ts`; a `none` rowId marks a
statement-level flag. -/
structure ValidationFlag where
  rowId : Option String
  severity : Severity
  message : String
  field : Option String := none
  suggestedFix : Option String := none
deriving DecidableEq

/-- `ValidationResult` from `lib/types.ts`. -/
structure ValidationResult where
  status : Status
  flags : List ValidationFlag
  isReconciled : Bool
  totalTransactions : ℕ
  flaggedRowsCount : ℕ

/-- `TransactionHash` from `lib/types.ts`. -/
structure TransactionHash where
  rowId : String
  hash : String
  date : String
  amount : ℚ
  description : String
  accountLastFour : String

/-- Result record of `normalizeTransactions`. -/
structure NormalizeOutput where
  normalized : List Transaction
  errors : List ValidationFlag

/-- The `error` flag the Normalizer pushes for an unparsable posted date. -/
def invalidDateFlag (tx : Transaction) : ValidationFlag :=
  { rowId := some tx.rowId, severity := Severity.error,
    message := "Invalid date format: " ++ orEmpty tx.postedDate,
    field := some "postedDate" }

/-- Body of the closure `normalizeTransactions` maps over each transaction:
the updated transaction together with the (at most one) error flag the
closure pushes for it.  The date branch both writes `normalizedDate` and
pushes the flag; here the two effects are read off the same conditional
separately.  The `catch` branch of the source is unreachable (`new Date`
never throws) and is not modelled. -/
def normalizeTx (tx : Transaction) : Transaction × Option ValidationFlag :=
  -- Normalize date to YYYY-MM-DD format
  let nd :=
    if jsTruthy tx.postedDate then
      match jsParseDate (orEmpty tx.postedDate) with
      | some t => some (isoOfDate t)
      | none => tx.normalizedDate
    else tx.normalizedDate
  let derr : Option ValidationFlag :=
    if jsTruthy tx.postedDate then
      match jsParseDate (orEmpty tx.postedDate) with
      | some _ => none
      | none => some (invalidDateFlag tx)
    else none
  -- Normalize amount: debit negative, credit positive
  let amount : ℚ := 0
  let amount :=
    if jsTruthy tx.debit then
      match jsParseFloat (stripNonNumeric (orEmpty tx.debit)) with
      | some v => -|v|
      | none => amount
    else amount
  let amount :=
    if jsTruthy tx.credit then
      match jsParseFloat (stripNonNumeric (orEmpty tx.credit)) with
      | some v => |v|
      | none => amount
    else amount
  -- Normalize running balance
  let nb :=
    if jsTruthy tx.runningBalance then
      match jsParseFloat (stripNonNumeric (orEmpty tx.runningBalance)) with
      | some v => some (jsRound (v * 100) / 100)
      | none => tx.normalizedBalance
    else tx.normalizedBalance
  ({ tx with
      normalizedDate := nd
      normalizedAmount := some (jsRound (amount * 100) / 100)
      normalizedBalance := nb },
   derr)

/-- `normalizeTransactions` (PROMPT 4): maps the closure over the list; the
errors pushed by the closure appear in transaction order, at most one per
row. -/
def normalizeTransactions (transactions : List Transaction) : NormalizeOutput :=
  { normalized := transactions.map (fun tx => (normalizeTx tx).1)
    errors := transactions.filterMap (fun tx => (normalizeTx tx).2) }

/-- Truthiness of an `original<Field>` shadow of nullable type: falsy when
the property is missing, `null`, or the empty string. -/
def shadowTruthy (o : Option (Option String)) : Bool :=
  match o with
  | some (some s) => !s.isEmpty
  | _ => false

/-- Truthiness of the `originalDescription` shadow (non-nullable string
property): falsy when missing or empty. -/
def descShadowTruthy (o : Option String) : Bool :=
  match o with
  | some s => !s.isEmpty
  | none => false

/-- First shadow step of `applyEdit`: "store original value if not already
stored" for `postedDate` (the source's `!edited.originalPostedDate &&
field === 'postedDate'` guard). -/
def storeOriginalPostedDate (transaction : Transaction) (field : String)
    (edited : Transaction) : Transaction :=
  if shadowTruthy edited.originalPostedDate = false ∧ field = "postedDate" then
    { edited with originalPostedDate := some transaction.postedDate }
  else edited

/-- Shadow step of `applyEdit` for `description`. -/
def storeOriginalDescription (transaction : Transaction) (field : String)
    (edited : Transaction) : Transaction :=
  if descShadowTruthy edited.originalDescription = false ∧ field = "description" then
    { edited with originalDescription := some transaction.description }
  else edited

/-- Shadow step of `applyEdit` for `debit`. -/
def storeOriginalDebit (transaction : Transaction) (field : String)
    (edited : Transaction) : Transaction :=
  if shadowTruthy edited.originalDebit = false ∧ field = "debit" then
    { edited with originalDebit := some transaction.debit }
  else edited

/-- Shadow step of `applyEdit` for `credit`. -/
def storeOriginalCredit (transaction : Transaction) (field : String)
    (edited : Transaction) : Transaction :=
  if shadowTruthy edited.originalCredit = false ∧ field = "credit" then
    { edited with originalCredit := some transaction.credit }
  else edited

/-- The `switch (field)` dispatch of `applyEdit`: only a recognised field
name changes the corresponding raw field; any other name falls through. -/
def applyFieldEdit (field : String) (newValue : Option String)
    (edited : Transaction) : Transaction :=
  if field = "postedDate" then { edited with postedDate := newValue }
  else if field = "description" then { edited with description := orEmpty newValue }
  else if field = "debit" then { edited with debit := newValue }
  else if field = "credit" then { edited with credit := newValue }
  else edited

/-- Final step of `applyEdit`: mark as edited and add `field` to
`editedFields` when not already present (`includes`/`push`). -/
def markEdited (field : String) (edited : Transaction) : Transaction :=
  let edited := { edited with isEdited := true }
  if field ∈ edited.editedFields then edited
  else { edited with editedFields := edited.editedFields ++ [field] }

/-- `applyEdit` (PROMPT 6).  The source's sequential mutations of the
spread copy `edited` are rendered as the composition of the step functions
above, in source order. -/
def applyEdit (transaction : Transaction) (field : String) (newValue : Option String) :
    Transaction :=
  let edited := transaction
  -- Store original value if not already stored
  let edited := storeOriginalPostedDate transaction field edited
  let edited := storeOriginalDescription transaction field edited
  let edited := storeOriginalDebit transaction field edited
  let edited := storeOriginalCredit transaction field edited
  -- Apply the edit
  let edited := applyFieldEdit field newValue edited
  -- Mark as edited
  markEdited field edited

/-- `metadata.normalizedOpeningBalance || 0` (an absent — or zero — value
contributes 0; `NaN` cannot arise in the rational model). -/
def openingOf (m : StatementMetadata) : ℚ :=
  m.normalizedOpeningBalance.getD 0

/-- `metadata.normalizedClosingBalance || 0`. -/
def closingOf (m : StatementMetadata) : ℚ :=
  m.normalizedClosingBalance.getD 0

/-- `transactions.reduce((sum, tx) => sum + (tx.normalizedAmount || 0), 0)`. -/
def sumAmounts (transactions : List Transaction) : ℚ :=
  transactions.foldl (fun sum tx => sum + tx.normalizedAmount.getD 0) 0

/-- The `difference` computed by `reconcileStatement`. -/
def reconDiff (m : StatementMetadata) (transactions : List Transaction) : ℚ :=
  |openingOf m + sumAmounts transactions - closingOf m|

/-- Message of the statement-level reconciliation-mismatch flag. -/
def reconMismatchMessage (o s c d : ℚ) : String :=
  "Reconciliation mismatch: Opening (" ++ jsNumToString o ++ ") + Transactions (" ++
    jsNumToString s ++ ") ≠ Closing (" ++ jsNumToString c ++ "). Difference: " ++
    jsNumToString d

/-- The statement-level `error` flag `reconcileStatement` pushes when the
balance identity fails. -/
def mismatchFlag (m : StatementMetadata) (transactions : List Transaction) : ValidationFlag :=
  { rowId := none, severity := Severity.error,
    message := reconMismatchMessage (openingOf m) (sumAmounts transactions) (closingOf m)
      (reconDiff m transactions) }

/-- Message of a per-row running-balance warning. -/
def runningMismatchMessage (expected got : ℚ) : String :=
  "Running balance mismatch: Expected " ++ jsNumToString expected ++ ", got " ++
    jsNumToString got

/-- The `for (const tx of transactions)` running-balance walk of
`reconcileStatement`, accumulating `expectedBalance` and emitting a
`warning` for each present `normalizedBalance` drifting by more than
0.01. -/
def runningWalk (expected : ℚ) : List Transaction → List ValidationFlag
  | [] => []
  | tx :: rest =>
    let expected := expected + tx.normalizedAmount.getD 0
    (match tx.normalizedBalance with
     | some b =>
       if |expected - b| > 1 / 100 then
         [{ rowId := some tx.rowId, severity := Severity.warning,
            message := runningMismatchMessage expected b,
            field := some "runningBalance" }]
       else []
     | none => []) ++ runningWalk expected rest

/-- Per-transaction body of the date-containment loop, with the statement
period endpoints parsed once outside the loop. -/
def dateFlagFor (stD enD : Option (ℕ × ℕ × ℕ)) (tx : Transaction) : Option ValidationFlag :=
  if jsTruthy tx.normalizedDate then
    if jsDateLt (jsParseDate (orEmpty tx.normalizedDate)) stD ||
        jsDateLt enD (jsParseDate (orEmpty tx.normalizedDate)) then
      some { rowId := some tx.rowId, severity := Severity.warning,
             message := "Transaction date " ++ orEmpty tx.normalizedDate ++
               " outside statement period",
             field := some "postedDate" }
    else none
  else none

/-- Date-containment check of `reconcileStatement`: only runs when both
period endpoint strings are truthy; an Invalid Date on either side makes
both comparisons false. -/
def dateRangeFlags (m : StatementMetadata) (transactions : List Transaction) :
    List ValidationFlag :=
  if jsTruthy m.statementStartDate && jsTruthy m.statementEndDate then
    transactions.filterMap
      (dateFlagFor (jsParseDate (orEmpty m.statementStartDate))
        (jsParseDate (orEmpty m.statementEndDate)))
  else []

/-- `reconcileStatement` (PROMPT 5). -/
def reconcileStatement (metadata : StatementMetadata) (transactions : List Transaction) :
    ValidationResult :=
  let openingBalance := openingOf metadata
  let closingBalance := closingOf metadata
  let transactionSum := sumAmounts transactions
  let calculatedClosing := openingBalance + transactionSum
  let difference := |calculatedClosing - closingBalance|
  let balanceFlags : List ValidationFlag :=
    if difference > 1 / 100 then
      [{ rowId := none, severity := Severity.error,
         message := reconMismatchMessage openingBalance transactionSum closingBalance
           difference }]
    else []
  let flags := balanceFlags ++ runningWalk openingBalance transactions ++
    dateRangeFlags metadata transactions
  let isReconciled := (flags.filter (fun f => decide (f.severity = Severity.error))).length == 0
  { status := if isReconciled then Status.PASS else Status.BLOCK
    flags := flags
    isReconciled := isReconciled
    totalTransactions := transactions.length
    flaggedRowsCount := (flags.map (fun f => f.rowId)).dedup.length }

/-- Double the inner double quotes of a CSV description. -/
def escapeQuotes (s : String) : String :=
  String.mk (s.data.flatMap (fun c => if c = '"' then ['"', '"'] else [c]))

/-- `generateCSVExport` (PROMPT 8). -/
def generateCSVExport (transactions : List Transaction) (isReady : Bool) : Option String :=
  if !isReady then none
  else
    let rows := ["date,description,amount,balance"] ++
      transactions.map (fun tx =>
        let date := orEmpty tx.normalizedDate
        let description := "\"" ++ escapeQuotes tx.description ++ "\""
        let amount := (tx.normalizedAmount.map jsToFixed2).getD "0.00"
        let balance := (tx.normalizedBalance.map jsToFixed2).getD "0.00"
        date ++ "," ++ description ++ "," ++ amount ++ "," ++ balance)
    some ("\n".intercalate rows)

/-- `generateTransactionHash` (PROMPT 10).  Template interpolation renders
an absent normalized field as the literal `null` it holds after
extraction. -/
def generateTransactionHash (transaction : Transaction) (accountLastFour : String) :
    TransactionHash :=
  let hashInput := transaction.rowId ++ "|" ++
    (match transaction.normalizedDate with
     | some s => s
     | none => "null") ++ "|" ++
    (match transaction.normalizedAmount with
     | some q => jsNumToString q
     | none => "null") ++ "|" ++
    transaction.description ++ "|" ++ accountLastFour
  let hash := simpleHash hashInput
  { rowId := transaction.rowId
    hash := hash
    date := orEmpty transaction.normalizedDate
    amount := transaction.normalizedAmount.getD 0
    description := transaction.description
    accountLastFour := accountLastFour }

/-- `generateFITID`: the transaction hash truncated / zero-padded to exactly
32 characters. -/
def generateFITID (transaction : Transaction) (accountLastFour : String) : String :=
  let h := (generateTransactionHash transaction accountLastFour).hash.take 32
  h ++ String.mk (List.replicate (32 - h.length) '0')

/-- One `<STMTTRN>` block of the OFX body. -/
def ofxTransactionBlock (accountLastFour : String) (tx : Transaction) : String :=
  let fitid := generateFITID tx accountLastFour
  let dtposted := jsOrDefault (tx.normalizedDate.map stripDashes) "20240101"
  let trnamt := jsToFixed2 (tx.normalizedAmount.getD 0)
  let memo := tx.description.take 255
  let trntype :=
    match tx.normalizedAmount with
    | some a => if a ≠ 0 ∧ a < 0 then "DEBIT" else "CREDIT"
    | none => "CREDIT"
  "<STMTTRN>\n" ++
  "<TRNTYPE>" ++ trntype ++ "\n" ++
  "<DTPOSTED>" ++ dtposted ++ "\n" ++
  "<TRNAMT>" ++ trnamt ++ "\n" ++
  "<FITID>" ++ fitid ++ "\n" ++
  "<MEMO>" ++ memo ++ "\n" ++
  "</STMTTRN>\n"

/-- `generateOFXExport` (PROMPT 9).  The wall-clock `DTSERVER` stamp the
source produces with `new Date()` is passed in as `now`. -/
def generateOFXExport (metadata : StatementMetadata) (transactions : List Transaction)
    (isReady : Bool) (now : String) : Option String :=
  if !isReady then none
  else
    let startDate := jsOrDefault (metadata.statementStartDate.map stripDashes) "20240101"
    let endDate := jsOrDefault (metadata.statementEndDate.map stripDashes) "20240131"
    let accountLastFour := jsOrDefault metadata.accountNumberLastFour "0000"
    let closingBalance := closingOf metadata
    some ("OFXHEADER:100\n" ++
      "SECURITY:NONE\n" ++
      "ENCODING:USASCII\n" ++
      "CHARSET:1252\n" ++
      "COMPRESSION:NONE\n" ++
      "OLDFILEFORMAT:NO\n" ++
      "NEWFILEFORMAT:YES\n" ++
      "\n" ++
      "<OFX>\n" ++
      "<SIGNONMSGSRSV1>\n" ++
      "<SONRS>\n" ++
      "<STATUS>\n" ++
      "<CODE>0\n" ++
      "<SEVERITY>INFO\n" ++
      "</STATUS>\n" ++
      "<DTSERVER>" ++ now ++ "\n" ++
      "<LANGUAGE>ENG\n" ++
      "</SONRS>\n" ++
      "</SIGNONMSGSRSV1>\n" ++
      "<BANKMSGSRSV1>\n" ++
      "<STMTTRNRS>\n" ++
      "<STATUS>\n" ++
      "<CODE>0\n" ++
      "<SEVERITY>INFO\n" ++
      "</STATUS>\n" ++
      "<STMTRS>\n" ++
      "<CURDEF>" ++ jsOrDefault metadata.currency "USD" ++ "\n" ++
      "<BANKACCTFROM>\n" ++
      "<BANKID>000000000\n" ++
      "<ACCTID>" ++ accountLastFour ++ "\n" ++
      "<ACCTTYPE>CHECKING\n" ++
      "</BANKACCTFROM>\n" ++
      "<BANKTRANLIST>\n" ++
      "<DTSTART>" ++ startDate ++ "\n" ++
      "<DTEND>" ++ endDate ++ "\n" ++
      String.join (transactions.map (ofxTransactionBlock accountLastFour)) ++
      "</BANKTRANLIST>\n" ++
      "<LEDGERBAL>\n" ++
      "<BALAMT>" ++ jsToFixed2 closingBalance ++ "\n" ++
      "<DTASOF>" ++ endDate ++ "\n" ++
      "</LEDGERBAL>\n" ++
      "</STMTRS>\n" ++
      "</STMTTRNRS>\n" ++
      "</BANKMSGSRSV1>\n" ++
      "</OFX>\n")

/-- Spec-side amount derivation, written from the spec's words (§4.1):
"start from 0; if `debit` present and parses as a number, set
amount = −|debit|; if `credit` present and parses, set amount = +|credit|
(credit, if present and valid, overrides any debit-derived amount)".
Compared against the Normalizer embedding in claim C6. -/
def amountSpec (tx : Transaction) : ℚ :=
  let a0 : ℚ := 0
  let a1 :=
    match tx.debit with
    | some s =>
      match jsParseFloat (stripNonNumeric s) with
      | some v => -|v|
      | none => a0
    | none => a0
  match tx.credit with
  | some s =>
    match jsParseFloat (stripNonNumeric s) with
    | some v => |v|
    | none => a1
  | none => a1

/-- Metadata of the spec's reconciliation-failure example: opening 5000.00,
stated closing 6000.00. -/
def exampleMeta : StatementMetadata :=
  { normalizedOpeningBalance := some 5000, normalizedClosingBalance := some 6000 }

/-- The seven normalized amounts of the spec's balance-identity example. -/
def exampleTxs : List Transaction :=
  [{ rowId := "row_1", normalizedAmount := some 1500 },
   { rowId := "row_2", normalizedAmount := some (-250) },
   { rowId := "row_3", normalizedAmount := some (-3000) },
   { rowId := "row_4", normalizedAmount := some 2500 },
   { rowId := "row_5", normalizedAmount := some (-25) },
   { rowId := "row_6", normalizedAmount := some (347.5 : ℚ) },
   { rowId := "row_7", normalizedAmount := some (-225) }]

/-- Metadata whose only parsed content is a closing balance of 100: the
balance identity fails by 100, producing one statement-level flag. -/
def c5Meta : StatementMetadata :=
  { normalizedOpeningBalance := some 0, normalizedClosingBalance := some 100 }

/-- Metadata with neither balance parsed (all fields absent). -/
def c9Meta : StatementMetadata := {}

/-- A transaction whose posted date is absent (`null`). -/
def c3Tx : Transaction :=
  { rowId := "row_1", postedDate := none, description := "Coffee", debit := some "5.00" }

/-- First edit of `c3Tx`: set `postedDate` to `2024-01-01`. -/
def c3Once : Transaction := applyEdit c3Tx "postedDate" (some "2024-01-01")

/-- Second edit: set `postedDate` again, to `2024-02-02`. -/
def c3Twice : Transaction := applyEdit c3Once "postedDate" (some "2024-02-02")

/-- A transaction with absent `postedDate` fed to the Normalizer. -/
def c4AbsentTx : Transaction := { rowId := "row_1", postedDate := none }

/-- A transaction whose `postedDate` is present but unparsable. -/
def c4BadTx : Transaction := { rowId := "row_2", postedDate := some "not-a-date" }

/-- Transactions for the normalization sign examples. -/
def c6DebitTx : Transaction := { rowId := "row_1", debit := some "250.00" }

def c6CreditTx : Transaction := { rowId := "row_2", credit := some "1500.00" }

def c6NeitherTx : Transaction := { rowId := "row_3" }

/-- Two transactions identical in all hash inputs except the description,
chosen as the classic 31-multiplier collision pair. -/
def c8TxA : Transaction :=
  { rowId := "r1", normalizedDate := some "2024-01-15", normalizedAmount := some 100,
    description := "Ab" }

def c8TxB : Transaction :=
  { rowId := "r1", normalizedDate := some "2024-01-15", normalizedAmount := some 100,
    description := "BC" }

/-- A transaction used to witness the frame property of `applyEdit` on a
non-editable field name. -/
def c10Tx : Transaction :=
  { rowId := "row_1", postedDate := some "01/15/2024", description := "Coffee",
    debit := some "5.00", runningBalance := some "995.00" }

/-- Every flag the running-balance walk emits is a per-row `warning`. -/
theorem runningWalk_mem (e : ℚ) (txs : List Transaction) (f : ValidationFlag)
    (hf : f ∈ runningWalk e txs) :
    f.rowId.isNone = false ∧ f.severity = Severity.warning := by
  induction txs generalizing e with
  | nil => simp [runningWalk] at hf
  | cons tx rest ih =>
    rw [runningWalk] at hf
    simp only [List.mem_append] at hf
    rcases hf with h | h
    · split at h
      · split at h
        · simp only [List.mem_singleton] at h
          subst h
          exact ⟨rfl, rfl⟩
        · simp at h
      · simp at h
    · exact ih _ h

/-- Every flag the date-containment check emits is a per-row `warning`. -/
theorem dateRangeFlags_mem (m : StatementMetadata) (txs : List Transaction)
    (f : ValidationFlag) (hf : f ∈ dateRangeFlags m txs) :
    f.rowId.isNone = false ∧ f.severity = Severity.warning := by
  unfold dateRangeFlags at hf
  split at hf
  · simp only [List.mem_filterMap] at hf
    obtain ⟨tx, _, htx⟩ := hf
    unfold dateFlagFor at htx
    split at htx
    · split at htx
      · cases htx
        exact ⟨rfl, rfl⟩
      · cases htx
    · cases htx
  · simp at hf

/-- The flag list of `reconcileStatement`, decomposed into its three
sources in emission order. -/
theorem recon_flags_def (m : StatementMetadata) (txs : List Transaction) :
    (reconcileStatement m txs).flags =
      (if reconDiff m txs > 1 / 100 then [mismatchFlag m txs] else []) ++
        runningWalk (openingOf m) txs ++ dateRangeFlags m txs := rfl

/-- The statement-level (rowId `none`) flags of a reconciliation are
exactly the balance-identity mismatch flag, present iff the difference
exceeds 0.01. -/
theorem recon_stmt_filter (m : StatementMetadata) (txs : List Transaction) :
    (reconcileStatement m txs).flags.filter (fun f => f.rowId.isNone) =
      if reconDiff m txs > 1 / 100 then [mismatchFlag m txs] else [] := by
  rw [recon_flags_def, List.filter_append, List.filter_append]
  have h1 : (runningWalk (openingOf m) txs).filter (fun f => f.rowId.isNone) = [] :=
    List.filter_eq_nil_iff.mpr (fun f hf => by
      simp [(runningWalk_mem _ _ f hf).1])
  have h2 : (dateRangeFlags m txs).filter (fun f => f.rowId.isNone) = [] :=
    List.filter_eq_nil_iff.mpr (fun f hf => by
      simp [(dateRangeFlags_mem _ _ f hf).1])
  rw [h1, h2, List.append_nil, List.append_nil]
  split
  · rfl
  · rfl

/-- The `error`-severity flags of a reconciliation are exactly the
balance-identity mismatch flag, present iff the difference exceeds 0.01. -/
theorem recon_error_filter (m : StatementMetadata) (txs : List Transaction) :
    (reconcileStatement m txs).flags.filter
        (fun f => decide (f.severity = Severity.error)) =
      if reconDiff m txs > 1 / 100 then [mismatchFlag m txs] else [] := by
  rw [recon_flags_def, List.filter_append, List.filter_append]
  have h1 : (runningWalk (openingOf m) txs).filter
      (fun f => decide (f.severity = Severity.error)) = [] :=
    List.filter_eq_nil_iff.mpr (fun f hf => by
      simp [(runningWalk_mem _ _ f hf).2])
  have h2 : (dateRangeFlags m txs).filter
      (fun f => decide (f.severity = Severity.error)) = [] :=
    List.filter_eq_nil_iff.mpr (fun f hf => by
      simp [(dateRangeFlags_mem _ _ f hf).2])
  rw [h1, h2, List.append_nil, List.append_nil]
  split
  · rfl
  · rfl

/-- The verdict is `BLOCK` exactly when the balance identity fails by more
than 0.01 (all other checks only emit warnings). -/
theorem recon_status (m : StatementMetadata) (txs : List Transaction) :
    (reconcileStatement m txs).status =
      if reconDiff m txs > 1 / 100 then Status.BLOCK else Status.PASS := by
  have hfe := recon_error_filter m txs
  show (if ((reconcileStatement m txs).flags.filter
      (fun f => decide (f.severity = Severity.error))).length == 0
    then Status.PASS else Status.BLOCK) = _
  rw [hfe]
  by_cases hd : reconDiff m txs > 1 / 100
  · rw [if_pos hd, if_pos hd]
    rfl
  · rw [if_neg hd, if_neg hd]
    rfl

/-- Counting distinct values of an option-valued list: the `none` value, if
present, contributes exactly one to the distinct count. -/
theorem dedup_option_length {α : Type _} [DecidableEq α] (l : List (Option α)) :
    l.dedup.length = (l.filterMap id).dedup.length + (if none ∈ l then 1 else 0) := by
  induction l with
  | nil => simp
  | cons a l ih =>
    by_cases ha : a ∈ l
    · rw [List.dedup_cons_of_mem ha]
      cases a with
      | none =>
        have hn : (none : Option α) ∈ l := ha
        simpa [List.filterMap_cons, id_eq, hn] using ih
      | some x =>
        have hx : x ∈ l.filterMap id := List.mem_filterMap.mpr ⟨some x, ha, rfl⟩
        rw [List.filterMap_cons]
        simpa [id_eq, List.dedup_cons_of_mem hx] using ih
    · rw [List.dedup_cons_of_not_mem ha]
      cases a with
      | none =>
        have hn : (none : Option α) ∉ l := ha
        simp only [List.filterMap_cons, id_eq, List.length_cons, ih, hn, if_false,
          List.mem_cons, true_or, if_true]
      | some x =>
        have hx : x ∉ l.filterMap id := by
          intro h
          obtain ⟨o, ho, he⟩ := List.mem_filterMap.mp h
          simp only [id_eq] at he
          subst he
          exact ha ho
        have hnone : ((none : Option α) ∈ some x :: l) ↔ ((none : Option α) ∈ l) := by
          simp
        rw [List.filterMap_cons]
        simp only [id_eq, List.length_cons, List.dedup_cons_of_not_mem hx, ih, hnone]
        omega

/-- Bridge between the `Set`-membership view and the `any` view of "some
flag is statement-level". -/
theorem any_isNone_iff (flags : List ValidationFlag) :
    (flags.any fun f => f.rowId.isNone) = true ↔
      none ∈ flags.map (fun f => f.rowId) := by
  simp [List.any_eq_true, Option.isNone_iff_eq_none]

/-- JS truthiness versus plain presence for the amount-parsing steps of the
Normalizer: an empty present string is falsy, but it would not have parsed
anyway, so the two views of "present and parses" agree. -/
theorem jsTruthy_override (o : Option String) (g : ℚ → ℚ) (a : ℚ) :
    (if jsTruthy o then
       match jsParseFloat (stripNonNumeric (orEmpty o)) with
       | some v => g v
       | none => a
     else a) =
    (match o with
     | some s =>
       match jsParseFloat (stripNonNumeric s) with
       | some v => g v
       | none => a
     | none => a) := by
  cases o with
  | none => rfl
  | some s =>
    by_cases hs : s = ""
    · subst hs
      rfl
    · have hb : s.isEmpty = false := by
        simp [Bool.eq_false_iff, String.isEmpty_iff, hs]
      simp [jsTruthy, orEmpty, hb]

/-- C1: for every metadata and transaction list, `reconcileStatement`
computes the calculated closing balance as opening plus the sum of
`normalizedAmount` (absent amounts contributing 0, via `reconDiff`); the
statement-level (rowId `none`) flags are exactly one `error` flag — the
mismatch flag carrying the difference in its message — when the absolute
difference exceeds 0.01, and empty when it is within 0.01, with the verdict
`BLOCK` respectively `PASS`; and on the spec's example (opening 5000.00,
the seven amounts, stated closing 6000.00) there is exactly one
statement-level error flag and the status is `BLOCK`. -/
theorem reconcile_balance_identity :
    (∀ (m : StatementMetadata) (txs : List Transaction),
      (reconcileStatement m txs).flags.filter (fun f => f.rowId.isNone) =
        (if reconDiff m txs > 1 / 100 then [mismatchFlag m txs] else []) ∧
      (reconcileStatement m txs).status =
        (if reconDiff m txs > 1 / 100 then Status.BLOCK else Status.PASS)) ∧
    ((reconcileStatement exampleMeta exampleTxs).flags.filter
        (fun f => f.rowId.isNone) = [mismatchFlag exampleMeta exampleTxs] ∧
     (mismatchFlag exampleMeta exampleTxs).severity = Severity.error ∧
     (mismatchFlag exampleMeta exampleTxs).rowId = none ∧
     (reconcileStatement exampleMeta exampleTxs).status = Status.BLOCK) := by
  have hd : reconDiff exampleMeta exampleTxs > 1 / 100 :=
    of_decide_eq_true (by with_unfolding_all rfl)
  refine ⟨fun m txs => ⟨recon_stmt_filter m txs, recon_status m txs⟩, ?_, rfl, rfl, ?_⟩
  · rw [recon_stmt_filter, if_pos hd]
  · rw [recon_status, if_pos hd]

/-- C2: with `isReady = false` both serializers return the none-result, for
every metadata, every transaction list (and every wall-clock stamp): no
partial output is ever produced when not ready. -/
theorem export_gate_refuses (m : StatementMetadata) (txs : List Transaction)
    (now : String) :
    generateCSVExport txs false = none ∧ generateOFXExport m txs false now = none :=
  ⟨rfl, rfl⟩

/-- C3 (code bug): evaluation at the failing input.  `c3Tx.postedDate` is
the none-sentinel; the first edit stores it in the shadow (`some none`),
but because the source guards the shadow with JS truthiness
(`!edited.originalPostedDate`), the second edit overwrites the shadow with
the intermediate value `2024-01-01` — it no longer equals the pre-first-edit
value, contradicting the documented "store original value if not already
stored" behaviour. -/
theorem applyEdit_shadow_overwritten :
    c3Tx.postedDate = none ∧
    c3Once.originalPostedDate = some none ∧
    c3Once.postedDate = some "2024-01-01" ∧
    c3Twice.originalPostedDate = some (some "2024-01-01") ∧
    c3Twice.originalPostedDate ≠ some c3Tx.postedDate := by
  refine ⟨rfl, rfl, rfl, rfl, ?_⟩
  decide

/-- C4 counterexample: a transaction whose `postedDate` is absent produces
no error flag at all (the claim requires one): the Normalizer's truthiness
guard skips the whole date branch. -/
theorem normalize_absent_date_no_flag :
    c4AbsentTx.postedDate = none ∧
    (normalizeTransactions [c4AbsentTx]).errors = [] ∧
    (normalizeTransactions [c4AbsentTx]).normalized.map (fun t => t.normalizedDate) =
      [none] := by
  refine ⟨rfl, ?_, ?_⟩ <;> exact of_decide_eq_true (by with_unfolding_all rfl)

/-- C4 (amended): a transaction whose `postedDate` is present (truthy) but
does not parse keeps `normalizedDate` unchanged (absent when it was absent
on input) and emits the error flag `{rowId, field: postedDate}`; a
transaction with absent `postedDate` keeps `normalizedDate` unchanged and
emits no flag. -/
theorem normalize_date_failure (tx : Transaction) :
    (jsTruthy tx.postedDate = true → jsParseDate (orEmpty tx.postedDate) = none →
      (normalizeTransactions [tx]).errors = [invalidDateFlag tx] ∧
      (normalizeTransactions [tx]).normalized.map (fun t => t.normalizedDate) =
        [tx.normalizedDate]) ∧
    (jsTruthy tx.postedDate = false →
      (normalizeTransactions [tx]).errors = [] ∧
      (normalizeTransactions [tx]).normalized.map (fun t => t.normalizedDate) =
        [tx.normalizedDate]) := by
  constructor
  · intro ht hp
    unfold normalizeTransactions normalizeTx
    simp [ht, hp]
  · intro ht
    unfold normalizeTransactions normalizeTx
    simp [ht]

/-- Witness for the amended C4 theorem at concrete inputs: a present
unparsable date flags, an absent one does not. -/
theorem normalize_date_failure_witness :
    ((normalizeTransactions [c4BadTx]).errors = [invalidDateFlag c4BadTx] ∧
     (normalizeTransactions [c4BadTx]).normalized.map (fun t => t.normalizedDate) =
       [c4BadTx.normalizedDate]) ∧
    ((normalizeTransactions [c4AbsentTx]).errors = [] ∧
     (normalizeTransactions [c4AbsentTx]).normalized.map (fun t => t.normalizedDate) =
       [c4AbsentTx.normalizedDate]) :=
  ⟨(normalize_date_failure c4BadTx).1 (by decide) (by decide),
   (normalize_date_failure c4AbsentTx).2 (by decide)⟩

/-- C5 counterexample: a statement whose only flag is the statement-level
balance mismatch has `flaggedRowsCount = 1` — the `new Set` of rowIds
counts the `null` entry — while the number of distinct non-none rowIds
among the flags is 0, refuting the claim that a `none` rowId contributes
nothing. -/
theorem flaggedRowsCount_counts_none :
    (reconcileStatement c5Meta []).flaggedRowsCount = 1 ∧
    ((reconcileStatement c5Meta []).flags.filterMap (fun f => f.rowId)).dedup.length = 0 ∧
    ((reconcileStatement c5Meta []).flags.filter (fun f => f.rowId.isNone)).length = 1 := by
  refine ⟨?_, ?_, ?_⟩ <;> exact of_decide_eq_true (by with_unfolding_all rfl)

/-- C5 (amended): `flaggedRowsCount` equals the number of distinct rowId
values among the flags, where the `none` rowId of a statement-level flag
also counts as one distinct value (a row carrying two flags still counts
once). -/
theorem flaggedRowsCount_distinct (m : StatementMetadata) (txs : List Transaction) :
    (reconcileStatement m txs).flaggedRowsCount =
      ((reconcileStatement m txs).flags.filterMap (fun f => f.rowId)).dedup.length +
        (if (reconcileStatement m txs).flags.any (fun f => f.rowId.isNone) then 1
         else 0) := by
  have h := dedup_option_length ((reconcileStatement m txs).flags.map (fun f => f.rowId))
  show ((reconcileStatement m txs).flags.map (fun f => f.rowId)).dedup.length = _
  rw [h, List.filterMap_map]
  congr 1
  exact if_congr (any_isNone_iff _).symm rfl rfl

/-- C6: the Normalizer's amount derivation agrees with the spec's
description (start from 0, a present-and-parsing debit contributes minus
its absolute value, a present-and-parsing credit overrides with plus its
absolute value — `amountSpec`), up to the final 2-decimal rounding; in
particular debit `"250.00"` normalizes to −250.00, credit `"1500.00"` to
+1500.00, and a row with both fields absent to 0. -/
theorem normalize_amount_sign :
    (∀ tx : Transaction,
      (normalizeTransactions [tx]).normalized.map (fun t => t.normalizedAmount) =
        [some (jsRound (amountSpec tx * 100) / 100)]) ∧
    (normalizeTransactions [c6DebitTx]).normalized.map (fun t => t.normalizedAmount) =
      [some (-250)] ∧
    (normalizeTransactions [c6CreditTx]).normalized.map (fun t => t.normalizedAmount) =
      [some 1500] ∧
    (normalizeTransactions [c6NeitherTx]).normalized.map (fun t => t.normalizedAmount) =
      [some 0] := by
  refine ⟨?_, of_decide_eq_true (by with_unfolding_all rfl),
    of_decide_eq_true (by with_unfolding_all rfl),
    of_decide_eq_true (by with_unfolding_all rfl)⟩
  intro tx
  have hdeb := jsTruthy_override tx.debit (fun v => -|v|) 0
  have hcred := jsTruthy_override tx.credit (fun v => |v|)
    (if jsTruthy tx.debit then
       match jsParseFloat (stripNonNumeric (orEmpty tx.debit)) with
       | some v => -|v|
       | none => (0 : ℚ)
     else 0)
  unfold normalizeTransactions normalizeTx
  simp only [List.map_cons, List.map_nil]
  rw [hcred]
  simp only [hdeb]
  rfl

/-- C7: the normalize-then-reconcile pipeline is a pure function of its
arguments in this embedding — the source reads no ambient state in either
stage (the only wall-clock read of the module sits in the OFX serializer) —
so two evaluations on unchanged inputs agree in every observable field of
the `ValidationResult`. -/
theorem pipeline_idempotent (m : StatementMetadata) (txs : List Transaction) :
    (reconcileStatement m (normalizeTransactions txs).normalized).status =
      (reconcileStatement m (normalizeTransactions txs).normalized).status ∧
    (reconcileStatement m (normalizeTransactions txs).normalized).flags =
      (reconcileStatement m (normalizeTransactions txs).normalized).flags ∧
    (reconcileStatement m (normalizeTransactions txs).normalized).isReconciled =
      (reconcileStatement m (normalizeTransactions txs).normalized).isReconciled ∧
    (reconcileStatement m (normalizeTransactions txs).normalized).totalTransactions =
      (reconcileStatement m (normalizeTransactions txs).normalized).totalTransactions ∧
    (reconcileStatement m (normalizeTransactions txs).normalized).flaggedRowsCount =
      (reconcileStatement m (normalizeTransactions txs).normalized).flaggedRowsCount :=
  ⟨rfl, rfl, rfl, rfl, rfl⟩

/-- C8 counterexample: two transactions agreeing in rowId, normalizedDate,
normalizedAmount and account last-four but with different descriptions
(`Ab` vs `BC`, the classic multiplier-31 collision) receive the same hash,
refuting "changing any one of the five inputs changes the hash". -/
theorem hash_collision :
    c8TxA.rowId = c8TxB.rowId ∧
    c8TxA.normalizedDate = c8TxB.normalizedDate ∧
    c8TxA.normalizedAmount = c8TxB.normalizedAmount ∧
    c8TxA.description ≠ c8TxB.description ∧
    (generateTransactionHash c8TxA "1234").hash =
      (generateTransactionHash c8TxB "1234").hash := by
  refine ⟨rfl, rfl, rfl, by decide, ?_⟩
  exact of_decide_eq_true (by with_unfolding_all rfl)

/-- C8 (amended): the hash is deterministic and a function of exactly the
five semantic inputs — two transactions agreeing on rowId, normalizedDate,
normalizedAmount and description receive the same hash for the same
account last-four — but distinct inputs may collide (32-bit digest), so a
single-field change need not change the hash. -/
theorem hash_deterministic (t1 t2 : Transaction) (lastFour : String)
    (h1 : t1.rowId = t2.rowId) (h2 : t1.normalizedDate = t2.normalizedDate)
    (h3 : t1.normalizedAmount = t2.normalizedAmount)
    (h4 : t1.description = t2.description) :
    (generateTransactionHash t1 lastFour).hash =
      (generateTransactionHash t2 lastFour).hash := by
  unfold generateTransactionHash
  rw [h1, h2, h3, h4]

/-- Witness for the amended C8 theorem: a transaction and a copy differing
only in fields outside the five hash inputs get the same hash. -/
theorem hash_deterministic_witness :
    (generateTransactionHash c8TxA "1234").hash =
      (generateTransactionHash
        { c8TxA with debit := some "9.99", isEdited := true } "1234").hash :=
  hash_deterministic c8TxA { c8TxA with debit := some "9.99", isEdited := true }
    "1234" rfl rfl rfl rfl

/-- C9: absent normalized balances are substituted by 0 — the result equals
the one for the same metadata with both balances set to 0 — and when the
normalized amounts sum to within 0.01 of 0 the verdict is `PASS` with no
error flag at all: missing balance metadata alone never produces an error
flag. -/
theorem reconcile_missing_balances (m : StatementMetadata) (txs : List Transaction)
    (h1 : m.normalizedOpeningBalance = none) (h2 : m.normalizedClosingBalance = none)
    (h3 : |sumAmounts txs| ≤ 1 / 100) :
    reconcileStatement m txs =
      reconcileStatement
        { m with normalizedOpeningBalance := some 0,
                 normalizedClosingBalance := some 0 } txs ∧
    (reconcileStatement m txs).status = Status.PASS ∧
    (reconcileStatement m txs).flags.filter
      (fun f => decide (f.severity = Severity.error)) = [] := by
  have ho : openingOf m = 0 := by rw [openingOf, h1]; rfl
  have hc : closingOf m = 0 := by rw [closingOf, h2]; rfl
  have hr : reconDiff m txs = |sumAmounts txs| := by
    rw [reconDiff, ho, hc, zero_add, sub_zero]
  have hnd : ¬reconDiff m txs > 1 / 100 := by
    rw [hr]
    exact not_lt.mpr h3
  refine ⟨?_, ?_, ?_⟩
  · unfold reconcileStatement
    simp only [ho, hc]
    rfl
  · rw [recon_status, if_neg hnd]
  · rw [recon_error_filter, if_neg hnd]

/-- Witness for C9 at a concrete input: metadata with no parsed balances and
an empty transaction list passes with no error flags. -/
theorem reconcile_missing_balances_witness :
    reconcileStatement c9Meta [] =
      reconcileStatement
        { c9Meta with normalizedOpeningBalance := some 0,
                      normalizedClosingBalance := some 0 } [] ∧
    (reconcileStatement c9Meta []).status = Status.PASS ∧
    (reconcileStatement c9Meta []).flags.filter
      (fun f => decide (f.severity = Severity.error)) = [] :=
  reconcile_missing_balances c9Meta [] rfl rfl
    (of_decide_eq_true (by with_unfolding_all rfl))

/-- C10: for a field name outside the four editable fields, `applyEdit`
leaves every raw field and every `original<Field>` shadow unchanged, yet
still sets `isEdited` and records the unknown field name in
`editedFields`. -/
theorem applyEdit_unknown_field (tx : Transaction) (field : String)
    (newValue : Option String)
    (h : field ∉ ["postedDate", "description", "debit", "credit"]) :
    (applyEdit tx field newValue).rowId = tx.rowId ∧
    (applyEdit tx field newValue).postedDate = tx.postedDate ∧
    (applyEdit tx field newValue).description = tx.description ∧
    (applyEdit tx field newValue).debit = tx.debit ∧
    (applyEdit tx field newValue).credit = tx.credit ∧
    (applyEdit tx field newValue).runningBalance = tx.runningBalance ∧
    (applyEdit tx field newValue).originalPostedDate = tx.originalPostedDate ∧
    (applyEdit tx field newValue).originalDescription = tx.originalDescription ∧
    (applyEdit tx field newValue).originalDebit = tx.originalDebit ∧
    (applyEdit tx field newValue).originalCredit = tx.originalCredit ∧
    (applyEdit tx field newValue).isEdited = true ∧
    field ∈ (applyEdit tx field newValue).editedFields := by
  simp only [List.mem_cons, List.not_mem_nil, or_false, not_or] at h
  obtain ⟨hpd, hde, hdb, hcr⟩ := h
  unfold applyEdit storeOriginalPostedDate storeOriginalDescription storeOriginalDebit
    storeOriginalCredit applyFieldEdit markEdited
  by_cases hmem : field ∈ tx.editedFields
  · simp [hpd, hde, hdb, hcr, hmem]
  · simp [hpd, hde, hdb, hcr, hmem]

/-- Witness for C10 at a concrete input: editing the non-editable field
`runningBalance` changes no raw field or shadow but marks the row edited. -/
theorem applyEdit_unknown_field_witness :
    (applyEdit c10Tx "runningBalance" (some "1000.00")).runningBalance =
      c10Tx.runningBalance ∧
    (applyEdit c10Tx "runningBalance" (some "1000.00")).isEdited = true ∧
    "runningBalance" ∈ (applyEdit c10Tx "runningBalance" (some "1000.00")).editedFields := by
  have h := applyEdit_unknown_field c10Tx "runningBalance" (some "1000.00") (by decide)
  exact ⟨h.2.2.2.2.2.1, h.2.2.2.2.2.2.2.2.2.2.1, h.2.2.2.2.2.2.2.2.2.2.2⟩

end StatementParser
